import Mathlib

/-!
Shallow embedding of app/static/chatkit.js, the ChatKit widget bootstrapper.
The script reads a configuration from page attributes, polls for the
registration of the openai-chatkit custom element, creates a backend session
over HTTP, mounts the widget into a container, and manages a light/dark theme
persisted to local storage.  Time and the network are modelled as inputs
(an availability schedule for the custom element and a fixed fetch outcome);
the DOM pieces the script touches are modelled as an explicit page state.
-/

/-- Configuration record built from the page-embedded script attributes
(CONFIG in the source). -/
structure Config where
  workflowId : String
  sessionEndpoint : String
  placeholder : String
  greeting : String
deriving Repr, DecidableEq

/-- JS logical-or over an optional string attribute: an absent attribute and
the empty string are both falsy, so either yields the default.  This is the
pattern each CONFIG field uses. -/
def orDefault (v : Option String) (d : String) : String :=
  match v with
  | none => d
  | some s => if s = "" then d else s

/-- CONFIG construction from the four optional data attributes, with the
defaults of the source. -/
def mkConfig (workflowId sessionEndpoint placeholder greeting : Option String) : Config :=
  { workflowId := orDefault workflowId ""
    sessionEndpoint := orDefault sessionEndpoint "/api/create-session"
    placeholder := orDefault placeholder "Ask anything..."
    greeting := orDefault greeting "How can I help you today?" }

/-- The properties the script sets on a created openai-chatkit element.
A freshly created element has no theme; updateChatkitTheme assigns one.
The session token is the client_secret field of the session object, which is
absent when the backend body lacks that field. -/
structure ChatKitElement where
  sessionToken : Option String
  placeholder : String
  greetingText : String
  theme : Option String
deriving Repr, DecidableEq

/-- The fields the script ever reads from a parsed JSON response body:
the error field of a failure body, and the id and client_secret fields
of a session body.  An absent field reads as undefined, modelled none. -/
structure JsonObj where
  errorField : Option String := none
  idField : Option String := none
  clientSecretField : Option String := none
deriving Repr, DecidableEq

/-- Result of calling response.json() on a body: the parse fails with a
parser message, or produces an object. -/
inductive BodyParse where
  | unparseable (parseMsg : String)
  | parsed (obj : JsonObj)
deriving Repr, DecidableEq

/-- Outcome of the single fetch call: either the promise rejects with a
network-level error message, or a response arrives with a status code and
a body. -/
inductive FetchResult where
  | reject (msg : String)
  | respond (status : Nat) (parsed : BodyParse)
deriving Repr, DecidableEq

/-- response.ok of the fetch API: status in the inclusive range 200 to 299. -/
def respOk (status : Nat) : Bool :=
  decide (200 ≤ status ∧ status ≤ 299)

/-- The fallback error message built in createSession when the failure body
carries no usable error field. -/
def fallbackMsg (status : Nat) : String :=
  "HTTP " ++ toString status ++ ": Failed to create session"

/-- Result of createSession: the parsed session object, or the message of
the error it throws (every throw in the source carries a message that the
caller formats into the user-facing text). -/
inductive CreateSessionResult where
  | success (session : JsonObj)
  | failure (message : String)
deriving Repr, DecidableEq

/-- createSession from the source.  On a non-ok response it parses the body
and throws the error field when that is a truthy string, else the HTTP
fallback message; a body that fails to parse makes response.json() throw and
that parser error propagates.  On an ok response it returns the parsed
session object; the catch block only logs and rethrows, so the message is
unchanged. -/
def createSession (fr : FetchResult) : CreateSessionResult :=
  match fr with
  | .reject msg => .failure msg
  | .respond status parsed =>
      if !(respOk status) then
        match parsed with
        | .unparseable parseMsg => .failure parseMsg
        | .parsed obj =>
            match obj.errorField with
            | some e => .failure (if e = "" then fallbackMsg status else e)
            | none => .failure (fallbackMsg status)
      else
        match parsed with
        | .unparseable parseMsg => .failure parseMsg
        | .parsed obj => .success obj

/-- The mutable page state the script touches: the container children, the
error overlay and its message text, the retry button visibility and whether
its onclick has been armed to restart initialization, the document-level
dark flag, the stored theme preference, and the module-level chatkitElement
reference. -/
structure PageState where
  containerContent : List ChatKitElement
  errorOverlayVisible : Bool
  errorMessageText : String
  retryButtonVisible : Bool
  retryArmed : Bool
  docDark : Bool
  storedTheme : Option String
  chatkitElement : Option ChatKitElement
deriving Repr, DecidableEq

/-- showError from the source.  The retryable parameter defaults to true at
both call sites, which pass only the message; the button is hidden exactly
when retryable is false. -/
def showError (s : PageState) (message : String) (retryable : Bool) : PageState :=
  { s with
    errorMessageText := message
    errorOverlayVisible := true
    retryButtonVisible := if !retryable then false else s.retryButtonVisible }

/-- hideError from the source. -/
def hideError (s : PageState) : PageState :=
  { s with errorOverlayVisible := false }

/-- updateChatkitTheme from the source: when an element reference exists,
push the theme derived from the document dark flag onto it.  The mounted
node aliases this reference in the DOM; the model tracks the properties
through the reference. -/
def updateChatkitTheme (s : PageState) : PageState :=
  match s.chatkitElement with
  | none => s
  | some el =>
      { s with chatkitElement := some { el with theme := some (if s.docDark then "dark" else "light") } }

/-- toggleTheme from the source: classList.toggle flips the dark flag and
returns the new value, the stored preference is rewritten from that value,
and the theme is pushed onto the widget if one exists. -/
def toggleTheme (s : PageState) : PageState :=
  let isDark := !s.docDark
  let s1 := { s with docDark := isDark }
  let s2 := { s1 with storedTheme := some (if isDark then "dark" else "light") }
  updateChatkitTheme s2

/-- The outbound HTTP request createSession issues. -/
structure WorkflowObj where
  id : String
deriving Repr, DecidableEq

structure FileUploadObj where
  enabled : Bool
deriving Repr, DecidableEq

structure ChatkitConfigurationObj where
  file_upload : FileUploadObj
deriving Repr, DecidableEq

structure RequestBodyObj where
  workflow : WorkflowObj
  chatkit_configuration : ChatkitConfigurationObj
deriving Repr, DecidableEq

structure HttpRequest where
  url : String
  method : String
  contentType : String
  credentials : String
  body : RequestBodyObj
deriving Repr, DecidableEq

/-- The fetch options createSession passes, with the body object of the
source literal. -/
def mkSessionRequest (cfg : Config) : HttpRequest :=
  { url := cfg.sessionEndpoint
    method := "POST"
    contentType := "application/json"
    credentials := "include"
    body := { workflow := { id := cfg.workflowId }
              chatkit_configuration := { file_upload := { enabled := false } } } }

/-- Environment of one initChatKit run: the registration status of the
openai-chatkit custom element at the n-th check of the polling loop, and
the behavior of the single fetch. -/
structure Env where
  avail : Nat → Bool
  fetch : FetchResult

/-- The polling ceiling of the source: 50 attempts of 100 ms. -/
def maxAttempts : Nat := 50

/-- The while loop of initChatKit: starting from a given attempt counter
with the remaining fuel, return the final value of attempts.  Each
iteration checks registration, then waits 100 ms and increments; the loop
exits as soon as the element is registered or the counter reaches the
ceiling. -/
def poll (avail : Nat → Bool) : Nat → Nat → Nat
  | attempts, 0 => attempts
  | attempts, fuel + 1 =>
      if avail attempts then attempts else poll avail (attempts + 1) fuel

/-- initChatKit from the source, also the body of window.retryChatKit.
After the polling loop, a fresh registration check in the same synchronous
segment decides between the timeout error and proceeding; on the proceed
path any shown error is hidden, the session is created, and on success the
element is built, themed and mounted after the container is cleared.  Any
failure after the availability check lands in the catch block, which shows
a retryable error with the prefixed message and arms the retry button.
The second component lists the HTTP requests issued by the run. -/
def initChatKit (cfg : Config) (env : Env) (s : PageState) : PageState × List HttpRequest :=
  let attempts := poll env.avail 0 maxAttempts
  if !(env.avail attempts) then
    (showError s "ChatKit component not loaded. Please refresh the page." true, [])
  else
    let s1 := hideError s
    let req := mkSessionRequest cfg
    match createSession env.fetch with
    | .failure msg =>
        let s2 := showError s1 ("Failed to initialize ChatKit: " ++ msg) true
        ({ s2 with retryArmed := true }, [req])
    | .success sess =>
        let el : ChatKitElement :=
          { sessionToken := sess.clientSecretField
            placeholder := cfg.placeholder
            greetingText := cfg.greeting
            theme := none }
        let s2 := { s1 with chatkitElement := some el }
        let s3 := updateChatkitTheme s2
        let s4 := { s3 with containerContent := s3.chatkitElement.toList }
        (s4, [req])

/-- A concrete configuration used by the closed instances below. -/
def cfgEx : Config :=
  mkConfig (some "wf_123") none none none

/-- A concrete starting page state with the retry button visible and
nothing mounted. -/
def sEx : PageState :=
  { containerContent := []
    errorOverlayVisible := false
    errorMessageText := ""
    retryButtonVisible := true
    retryArmed := false
    docDark := false
    storedTheme := none
    chatkitElement := none }

/-- A page state whose stored preference disagrees with the document flag:
the flag is off but the stored value is dark. -/
def sInconsistent : PageState := { sEx with storedTheme := some "dark" }

/-- A page state whose stored preference agrees with the document flag. -/
def sConsistent : PageState := { sEx with storedTheme := some "light" }

/-- An environment in which the custom element never registers. -/
def envTimeout : Env := ⟨fun _ => false, .reject "unused"⟩

/-- An availability schedule that first reports the element registered at
the third check. -/
def availEx (n : Nat) : Bool := decide (3 ≤ n)

/-- A session object as the backend returns it. -/
def sessEx : JsonObj :=
  { errorField := none, idField := some "cksess_123", clientSecretField := some "ek_abc" }

/-- An environment in which the element is registered at once and the
session request succeeds. -/
def envOk : Env := ⟨fun _ => true, .respond 200 (.parsed sessEx)⟩

/-- An environment in which the element is registered at once and the
fetch promise rejects at the network level. -/
def envNetFail : Env := ⟨fun _ => true, .reject "NetworkError when attempting to fetch resource"⟩

theorem poll_le (avail : Nat → Bool) (fuel : Nat) :
    ∀ attempts, poll avail attempts fuel ≤ attempts + fuel := by
  induction fuel with
  | zero => intro a; simp [poll]
  | succ n ih =>
      intro a
      simp only [poll]
      split
      · omega
      · have := ih (a + 1); omega

theorem poll_finds (avail : Nat → Bool) (t : Nat) (ht : avail t = true) :
    ∀ fuel a, a ≤ t → t < a + fuel → (∀ i, a ≤ i → i < t → avail i = false) →
      poll avail a fuel = t := by
  intro fuel
  induction fuel with
  | zero => intro a h1 h2 _; omega
  | succ n ih =>
      intro a h1 h2 h3
      rcases Nat.eq_or_lt_of_le h1 with heq | hlt
      · subst heq; simp [poll, ht]
      · have hfa : avail a = false := h3 a (Nat.le_refl a) hlt
        simp only [poll, hfa]
        exact ih (a + 1) hlt (by omega) (fun i hi1 hi2 => h3 i (by omega) hi2)

theorem updateChatkitTheme_docDark (s : PageState) :
    (updateChatkitTheme s).docDark = s.docDark := by
  cases h : s.chatkitElement <;> simp [updateChatkitTheme, h]

theorem updateChatkitTheme_storedTheme (s : PageState) :
    (updateChatkitTheme s).storedTheme = s.storedTheme := by
  cases h : s.chatkitElement <;> simp [updateChatkitTheme, h]

theorem toggleTheme_docDark (s : PageState) :
    (toggleTheme s).docDark = !s.docDark := by
  simp [toggleTheme, updateChatkitTheme_docDark]

theorem toggleTheme_storedTheme (s : PageState) :
    (toggleTheme s).storedTheme = some (if !s.docDark then "dark" else "light") := by
  simp [toggleTheme, updateChatkitTheme_storedTheme]

/-- Claim C6: the availability polling loop always terminates, performs at
most 50 attempts, and exits early at the first check at which the element
is registered. -/
theorem poll_terminates_within_ceiling (avail : Nat → Bool) :
    poll avail 0 maxAttempts ≤ maxAttempts ∧
    (∀ t, t < maxAttempts → avail t = true → (∀ i, i < t → avail i = false) →
      poll avail 0 maxAttempts = t) := by
  constructor
  · have := poll_le avail maxAttempts 0; omega
  · intro t ht hav hbefore
    exact poll_finds avail t hav maxAttempts 0 (Nat.zero_le t) (by omega)
      (fun i _ hi => hbefore i hi)

/-- Witness for C6: with registration first reported at the third check the
loop stops after exactly 3 attempts, inside the ceiling. -/
theorem poll_terminates_within_ceiling_witness :
    poll availEx 0 maxAttempts = 3 ∧ poll availEx 0 maxAttempts ≤ maxAttempts :=
  ⟨(poll_terminates_within_ceiling availEx).2 3 (by decide) (by decide)
      (by decide),
   (poll_terminates_within_ceiling availEx).1⟩

/-- Claim C3: when the custom element never registers, the run issues no
HTTP request at all. -/
theorem no_network_call_when_never_registered (cfg : Config) (env : Env) (s : PageState)
    (h : ∀ n, env.avail n = false) :
    (initChatKit cfg env s).2 = [] := by
  simp [initChatKit, h]

/-- Witness for C3 at a concrete environment and state. -/
theorem no_network_call_when_never_registered_witness :
    (initChatKit cfgEx envTimeout sEx).2 = [] :=
  no_network_call_when_never_registered cfgEx envTimeout sEx (fun _ => rfl)

/-- Claim C1: evaluation of the timeout path.  When the element is still
unregistered after the 50-attempt ceiling, the run shows the
component-not-loaded error and issues no request, but the retry control is
NOT hidden: the timeout call site passes only the message, so the
retryable parameter of showError keeps its default true and the hiding
branch is never taken.  The run also returns without arming the retry
control or touching the container. -/
theorem timeout_error_leaves_retry_button_visible :
    (initChatKit cfgEx envTimeout sEx).1.errorOverlayVisible = true ∧
    (initChatKit cfgEx envTimeout sEx).1.errorMessageText =
      "ChatKit component not loaded. Please refresh the page." ∧
    (initChatKit cfgEx envTimeout sEx).1.retryButtonVisible = true ∧
    (initChatKit cfgEx envTimeout sEx).1.retryArmed = false ∧
    (initChatKit cfgEx envTimeout sEx).2 = [] ∧
    (initChatKit cfgEx envTimeout sEx).1.containerContent = sEx.containerContent := by
  decide

/-- Claim C7, counterexample: starting with the dark flag off but the
stored preference dark, two toggles restore the flag but leave the stored
preference light, so the pair does not return to its original value. -/
theorem double_toggle_not_identity_on_inconsistent_state :
    ¬ ((toggleTheme (toggleTheme sInconsistent)).docDark = sInconsistent.docDark ∧
       (toggleTheme (toggleTheme sInconsistent)).storedTheme = sInconsistent.storedTheme) := by
  decide

/-- Claim C7, amended: two toggles always restore the document dark flag,
and they restore the stored preference as well whenever the starting
stored preference agrees with the starting flag (which the source
guarantees after any earlier toggle). -/
theorem double_toggle_restores_flag_and_consistent_preference (s : PageState) :
    (toggleTheme (toggleTheme s)).docDark = s.docDark ∧
    (s.storedTheme = some (if s.docDark then "dark" else "light") →
      (toggleTheme (toggleTheme s)).storedTheme = s.storedTheme) := by
  have h1 := toggleTheme_docDark s
  have h2 := toggleTheme_docDark (toggleTheme s)
  have h3 := toggleTheme_storedTheme (toggleTheme s)
  constructor
  · rw [h2, h1, Bool.not_not]
  · intro hcons
    rw [h3, h1, Bool.not_not, hcons]

/-- Witness for the amended C7 at a concrete consistent state. -/
theorem double_toggle_restores_witness :
    (toggleTheme (toggleTheme sConsistent)).docDark = sConsistent.docDark ∧
    (toggleTheme (toggleTheme sConsistent)).storedTheme = sConsistent.storedTheme :=
  ⟨(double_toggle_restores_flag_and_consistent_preference sConsistent).1,
   (double_toggle_restores_flag_and_consistent_preference sConsistent).2 (by decide)⟩

/-- Claim C10: after any toggle, the stored preference is dark exactly when
the document dark flag is set, whatever the two were before. -/
theorem toggle_stores_preference_consistent_with_flag (s : PageState) :
    ((toggleTheme s).storedTheme = some "dark") ↔ ((toggleTheme s).docDark = true) := by
  rw [toggleTheme_docDark, toggleTheme_storedTheme]
  cases s.docDark <;> decide

/-- Claim C2, counterexample: a 500 response whose body is the object with
error field X is shown to the user as the prefixed text, not as the bare
X, because the catch block in initChatKit formats every failure message
into a Failed-to-initialize template. -/
theorem shown_message_is_prefixed_not_bare :
    (initChatKit cfgEx ⟨fun _ => true, .respond 500 (.parsed { errorField := some "X" })⟩
        sEx).1.errorMessageText = "Failed to initialize ChatKit: X" ∧
    (initChatKit cfgEx ⟨fun _ => true, .respond 500 (.parsed { errorField := some "X" })⟩
        sEx).1.errorMessageText ≠ "X" := by
  decide

/-- Claim C2, amended: once the element is available, on a non-success
status the user-shown message carries the prefix Failed to initialize
ChatKit followed by: the error field of the body when that is a nonempty
string; the text HTTP status colon Failed to create session when the body
parses but has no error field, and likewise when the error field is the
empty string (falsy, so the source falls back); or the JSON parser message
itself when the body is unparseable (so the unparseable case does not fall
back to the HTTP-status form). -/
theorem shown_error_message_forms (cfg : Config) (s : PageState) (avail : Nat → Bool)
    (status : Nat)
    (hav : avail (poll avail 0 maxAttempts) = true) (hbad : respOk status = false) :
    (∀ e obj, obj.errorField = some e → e ≠ "" →
        (initChatKit cfg ⟨avail, FetchResult.respond status (.parsed obj)⟩ s).1.errorMessageText =
          "Failed to initialize ChatKit: " ++ e) ∧
    (∀ obj, obj.errorField = none →
        (initChatKit cfg ⟨avail, FetchResult.respond status (.parsed obj)⟩ s).1.errorMessageText =
          "Failed to initialize ChatKit: HTTP " ++ toString status ++ ": Failed to create session") ∧
    (∀ obj, obj.errorField = some "" →
        (initChatKit cfg ⟨avail, FetchResult.respond status (.parsed obj)⟩ s).1.errorMessageText =
          "Failed to initialize ChatKit: HTTP " ++ toString status ++ ": Failed to create session") ∧
    (∀ m, (initChatKit cfg ⟨avail, FetchResult.respond status (.unparseable m)⟩ s).1.errorMessageText =
          "Failed to initialize ChatKit: " ++ m) := by
  refine ⟨?_, ?_, ?_, ?_⟩
  · intro e obj ho hne
    simp [initChatKit, hav, createSession, hbad, ho, hne, showError, hideError]
  · intro obj ho
    simp [initChatKit, hav, createSession, hbad, ho, showError, hideError, fallbackMsg]
    rw [← String.append_assoc, ← String.append_assoc]
    rfl
  · intro obj ho
    simp [initChatKit, hav, createSession, hbad, ho, showError, hideError, fallbackMsg]
    rw [← String.append_assoc, ← String.append_assoc]
    rfl
  · intro m
    simp [initChatKit, hav, createSession, hbad, showError, hideError]

/-- Witness for the amended C2 at a concrete failing response. -/
theorem shown_error_message_forms_witness :
    (initChatKit cfgEx ⟨fun _ => true, FetchResult.respond 500 (.parsed { errorField := some "boom" })⟩
        sEx).1.errorMessageText = "Failed to initialize ChatKit: boom" :=
  (shown_error_message_forms cfgEx sEx (fun _ => true) 500 rfl (by decide)).1
    "boom" { errorField := some "boom" } rfl (by decide)

/-- Claim C4: whenever the availability check passes and session creation
succeeds, the element the run builds and mounts carries the client_secret
field of the session as its session token, and not the id field whenever
the two differ. -/
theorem mounted_token_is_client_secret (cfg : Config) (env : Env) (s : PageState)
    (sess : JsonObj)
    (hav : env.avail (poll env.avail 0 maxAttempts) = true)
    (hcs : createSession env.fetch = .success sess) :
    ∃ el, (initChatKit cfg env s).1.chatkitElement = some el ∧
      (initChatKit cfg env s).1.containerContent = [el] ∧
      el.sessionToken = sess.clientSecretField ∧
      (sess.clientSecretField ≠ sess.idField → el.sessionToken ≠ sess.idField) := by
  refine ⟨{ sessionToken := sess.clientSecretField, placeholder := cfg.placeholder,
            greetingText := cfg.greeting,
            theme := some (if s.docDark then "dark" else "light") }, ?_, ?_, ?_, ?_⟩ <;>
    simp [initChatKit, hav, hcs, hideError, updateChatkitTheme]

/-- Witness for C4 at a concrete successful environment. -/
theorem mounted_token_is_client_secret_witness :
    ∃ el, (initChatKit cfgEx envOk sEx).1.chatkitElement = some el ∧
      (initChatKit cfgEx envOk sEx).1.containerContent = [el] ∧
      el.sessionToken = sessEx.clientSecretField ∧
      (sessEx.clientSecretField ≠ sessEx.idField → el.sessionToken ≠ sessEx.idField) :=
  mounted_token_is_client_secret cfgEx envOk sEx sessEx rfl rfl

/-- Claim C5: a successful run mounts exactly one element into the
container whatever was there before, and running the restart entry point
again on the resulting state again leaves exactly one element, so a retry
replaces rather than duplicates the mounted content. -/
theorem mount_replaces_container (cfg : Config) (env : Env) (s : PageState) (sess : JsonObj)
    (hav : env.avail (poll env.avail 0 maxAttempts) = true)
    (hcs : createSession env.fetch = .success sess) :
    ((initChatKit cfg env s).1.containerContent).length = 1 ∧
    ((initChatKit cfg env (initChatKit cfg env s).1).1.containerContent).length = 1 := by
  constructor <;> simp [initChatKit, hav, hcs, hideError, updateChatkitTheme]

/-- Witness for C5 starting from a state with stale container content. -/
theorem mount_replaces_container_witness :
    ((initChatKit cfgEx envOk
        { sEx with containerContent := [⟨none, "p", "g", none⟩] }).1.containerContent).length = 1 ∧
    ((initChatKit cfgEx envOk (initChatKit cfgEx envOk
        { sEx with containerContent := [⟨none, "p", "g", none⟩] }).1).1.containerContent).length = 1 :=
  mount_replaces_container cfgEx envOk { sEx with containerContent := [⟨none, "p", "g", none⟩] }
    sessEx rfl rfl

/-- Claim C8: when session creation fails, the run leaves the container
content and the module-level element reference exactly as they were, so no
partial mount occurs and previously mounted content survives; this holds
on the timeout path as well, so no availability hypothesis is needed. -/
theorem failed_run_leaves_container_unchanged (cfg : Config) (env : Env) (s : PageState)
    (msg : String) (hcs : createSession env.fetch = .failure msg) :
    (initChatKit cfg env s).1.containerContent = s.containerContent ∧
    (initChatKit cfg env s).1.chatkitElement = s.chatkitElement := by
  by_cases hav : env.avail (poll env.avail 0 maxAttempts) = true
  · constructor <;> simp [initChatKit, hav, hcs, hideError, showError]
  · have hav' : env.avail (poll env.avail 0 maxAttempts) = false := by
      cases h : env.avail (poll env.avail 0 maxAttempts) <;> simp_all
    constructor <;> simp [initChatKit, hav', showError]

/-- Witness for C8: a network-level fetch failure on a state with a
previously mounted element leaves that content in place. -/
theorem failed_run_leaves_container_unchanged_witness :
    (initChatKit cfgEx envNetFail
        { sEx with containerContent := [⟨none, "p", "g", none⟩] }).1.containerContent =
      ({ sEx with containerContent := [⟨none, "p", "g", none⟩] } : PageState).containerContent ∧
    (initChatKit cfgEx envNetFail
        { sEx with containerContent := [⟨none, "p", "g", none⟩] }).1.chatkitElement =
      ({ sEx with containerContent := [⟨none, "p", "g", none⟩] } : PageState).chatkitElement :=
  failed_run_leaves_container_unchanged cfgEx envNetFail
    { sEx with containerContent := [⟨none, "p", "g", none⟩] }
    "NetworkError when attempting to fetch resource" rfl

/-- Claim C9: a run issues at most one HTTP request, and any request it
issues is a POST to the configured endpoint with the application/json
content type, credentials included, and the fixed body carrying the
workflow id and the disabled file-upload configuration. -/
theorem session_request_shape (cfg : Config) (env : Env) (s : PageState) :
    ((initChatKit cfg env s).2).length ≤ 1 ∧
    ∀ r ∈ (initChatKit cfg env s).2,
      r.method = "POST" ∧ r.url = cfg.sessionEndpoint ∧
      r.contentType = "application/json" ∧ r.credentials = "include" ∧
      r.body.workflow.id = cfg.workflowId ∧
      r.body.chatkit_configuration.file_upload.enabled = false := by
  by_cases hav : env.avail (poll env.avail 0 maxAttempts) = true
  · cases hcs : createSession env.fetch with
    | success sess =>
        constructor <;> simp [initChatKit, hav, hcs, mkSessionRequest, hideError]
    | failure msg =>
        constructor <;> simp [initChatKit, hav, hcs, mkSessionRequest, hideError, showError]
  · have hav' : env.avail (poll env.avail 0 maxAttempts) = false := by
      cases h : env.avail (poll env.avail 0 maxAttempts) <;> simp_all
    constructor <;> simp [initChatKit, hav']

/-- Witness for C9: the single request of a concrete successful run has
the stated shape. -/
theorem session_request_shape_witness :
    (mkSessionRequest cfgEx).method = "POST" ∧
    (mkSessionRequest cfgEx).url = cfgEx.sessionEndpoint ∧
    (mkSessionRequest cfgEx).contentType = "application/json" ∧
    (mkSessionRequest cfgEx).credentials = "include" ∧
    (mkSessionRequest cfgEx).body.workflow.id = cfgEx.workflowId ∧
    (mkSessionRequest cfgEx).body.chatkit_configuration.file_upload.enabled = false :=
  (session_request_shape cfgEx envOk sEx).2 (mkSessionRequest cfgEx) (by decide)
